import Mathlib

/-!
Shallow embedding of `src/Control_de_Portfolio.py` (function
`obtener_datos_financieros`), a single-pass financial-ratio extractor over
an external market-data provider (yfinance).

Modelling conventions:
* Numeric values are idealised as rationals `ℚ`; a nullable value is
  `Option ℚ` (`none` = Python `None` / absent row).
* Python truthiness on a number is `≠ 0`; `x / y if x and y else None`
  becomes `guardedDiv`.
* A pandas DataFrame indexed by row label is a `List (String × List ℚ)`
  (label, row values most-recent first, matching the quarterly columns).
* A dated series (dividends, monthly closes) is a `List (Int × ℚ)` of
  (calendar year of the date, value), in chronological order.
* A provider call that raises is modelled at two levels: `none` for the
  whole `StockData` models an exception in any unguarded fetch (aborting
  the ticker), and `history10y_monthly = none` models a failure inside the
  inner `try` around the ten-year P/E step (caught there).
* `row.values[0]` on a present but empty row raises `IndexError`; `bsField`
  returns an outer `none` for that raise, `some none` for an absent row,
  and `some (some v)` for a present first value.
* The mean of an empty pandas series is NaN, which `ℚ` cannot represent;
  `seriesMean` yields the junk value `0` there (division by zero in `ℚ`).
  The claims below only touch nonempty means.
-/

namespace ControlDePortfolio

/-- A labelled DataFrame row: (index label, cell values, most recent first). -/
abbrev Row := String × List ℚ

/-- Row lookup `df.loc[name]` guarded by `name in df.index`: the row values, if the label exists. -/
def lookupRow (df : List Row) (name : String) : Option (List ℚ) :=
  (df.find? (fun r => r.1 = name)).map Prod.snd

/-- Models `df.loc[name, :].values[0] if name in df.index else None`.
Outer `none` = `IndexError` raised by `values[0]` on a present empty row;
`some none` = absent row treated as null; `some (some v)` = first value. -/
def bsField (df : List Row) (name : String) : Option (Option ℚ) :=
  match lookupRow df name with
  | none => some none
  | some [] => none
  | some (v :: _) => some (some v)

/-- Models `x / y if x and y else None` (Python truthiness: non-None and nonzero). -/
def guardedDiv (x y : Option ℚ) : Option ℚ :=
  match x, y with
  | some a, some b => if a ≠ 0 ∧ b ≠ 0 then some (a / b) else none
  | _, _ => none

/-- Models `activos_totales - deuda_total if activos_totales and deuda_total else None`. -/
def capitalContableCalc (activos_totales deuda_total : Option ℚ) : Option ℚ :=
  match activos_totales, deuda_total with
  | some a, some d => if a ≠ 0 ∧ d ≠ 0 then some (a - d) else none
  | _, _ => none

/-- The sum of the series values whose year is `y` (one `groupby` bucket). -/
def yearSum (divs : List (Int × ℚ)) (y : Int) : ℚ :=
  ((divs.filter (fun p => p.1 = y)).map Prod.snd).sum

/-- The distinct years appearing in a dated series (the `groupby` keys). -/
def uniqueYears : List Int → List Int
  | [] => []
  | y :: rest => y :: (uniqueYears rest).filter (fun z => z ≠ y)

/-- Models `dividendos.groupby(dividendos.index.year).sum().get(2023, 0)`:
group the dividend events by year, sum each group, and read the 2023
entry of the resulting year-indexed series, defaulting to `0`. -/
def dividendosAnualesCalc (divs : List (Int × ℚ)) : ℚ :=
  let grouped := (uniqueYears (divs.map Prod.fst)).map (fun y => (y, yearSum divs y))
  match grouped.find? (fun p => p.1 = 2023) with
  | some p => p.2
  | none => 0

/-- Average equity: the `Total Equity Gross Minority Interest` row, when it
exists with at least two quarterly entries, averaged over the two most
recent (`(equity.iloc[0] + equity.iloc[1]) / 2`); otherwise `None`. -/
def capitalContablePromedioCalc (bs : List Row) : Option ℚ :=
  match lookupRow bs "Total Equity Gross Minority Interest" with
  | some (a :: b :: _) => some ((a + b) / 2)
  | _ => none

/-- Pandas `Series.mean()`; the empty series gives NaN in pandas, junk `0` here. -/
def seriesMean (l : List ℚ) : ℚ := l.sum / l.length

/-- The mean of the values of a dated series falling in year `y`. -/
def yearMean (m : List (Int × ℚ)) (y : Int) : ℚ :=
  seriesMean ((m.filter (fun p => p.1 = y)).map Prod.snd)

/-- Models the yearly-end resample-and-mean of a monthly close series: the per-year means,
one per year appearing in the data, in chronological order. -/
def resampleYE (m : List (Int × ℚ)) : List ℚ :=
  (uniqueYears (m.map Prod.fst)).map (yearMean m)

/-- Python `series[-10:]`: the last ten entries (all of them when fewer). -/
def lastTen (l : List ℚ) : List ℚ := l.drop (l.length - 10)

/-- The inner `try` of the ten-year average P/E: fetch ten years of monthly
closes (`none` = the fetch raised, caught here), resample to yearly means,
divide the last ten by the single current EPS (`eps_hist = None` makes the
division raise `TypeError`, caught here), and average. -/
def perPromedioCalc (monthly : Option (List (Int × ℚ))) (eps_hist : Option ℚ) : Option ℚ :=
  match monthly with
  | none => none
  | some m =>
    match eps_hist with
    | none => none
    | some e => some (seriesMean ((lastTen (resampleYE m)).map (fun p => p / e)))

/-- Everything the provider returns for one ticker. -/
structure StockData where
  quarterly_balance_sheet : List Row
  dividends : List (Int × ℚ)
  history1d : List ℚ
  info_marketCap : Option ℚ
  info_totalRevenue : Option ℚ
  info_sharesOutstanding : Option ℚ
  info_trailingPE : Option ℚ
  quarterly_financials : List Row
  history10y_monthly : Option (List (Int × ℚ))
  deriving DecidableEq

/-- The per-ticker record appended to `data` (the dict literal of the source). -/
structure CompanySnapshot where
  ticker : String
  activo_corriente : Option ℚ
  pasivo_corriente : Option ℚ
  deuda_total : Option ℚ
  activos_totales : Option ℚ
  capital_contable : Option ℚ
  dividendos_anuales : ℚ
  precio_de_cierre : Option ℚ
  capital_contable_promedio : Option ℚ
  capitalizacion_bursatil : Option ℚ
  ventas : Option ℚ
  utilidad_neta : Option ℚ
  razon_circulante : Option ℚ
  deudas_a_activos : Option ℚ
  deuda_a_capital : Option ℚ
  rendimiento_dividendos : Option ℚ
  roa : Option ℚ
  roe : Option ℚ
  precio_a_ventas : Option ℚ
  precio_a_ganancia : Option ℚ
  per : ℚ
  per_promedio : Option ℚ
  deriving DecidableEq

/-- The field extractions inside the per-ticker `try` that can raise and are
not individually guarded: the four balance-sheet `values[0]` reads, the
`Net Income` read from `quarterly_financials.T`, and the unguarded
`trailingPE` lookup in `stock.info`.  `none` = an exception escapes to the
per-ticker handler. -/
def rawFields (sd : StockData) :
    Option (Option ℚ × Option ℚ × Option ℚ × Option ℚ × Option ℚ × ℚ) :=
  (bsField sd.quarterly_balance_sheet "Current Assets").bind fun activo_corriente =>
  (bsField sd.quarterly_balance_sheet "Current Liabilities").bind fun pasivo_corriente =>
  (bsField sd.quarterly_balance_sheet "Total Liabilities Net Minority Interest").bind
    fun deuda_total =>
  (bsField sd.quarterly_balance_sheet "Total Assets").bind fun activos_totales =>
  (bsField sd.quarterly_financials "Net Income").bind fun utilidad_neta =>
  sd.info_trailingPE.bind fun per =>
  some (activo_corriente, pasivo_corriente, deuda_total, activos_totales, utilidad_neta, per)

/-- The pure body of the per-ticker `try`: given the raw extracted fields,
compute every derived field and build the record, exactly as lines 32-113
of the source. -/
def mkSnapshot (ticker : String) (sd : StockData)
    (activo_corriente pasivo_corriente deuda_total activos_totales utilidad_neta : Option ℚ)
    (per : ℚ) : CompanySnapshot :=
  let capital_contable := capitalContableCalc activos_totales deuda_total
  let dividendos_anuales := dividendosAnualesCalc sd.dividends
  let precio_de_cierre := sd.history1d.head?
  let capital_contable_promedio := capitalContablePromedioCalc sd.quarterly_balance_sheet
  let capitalizacion_bursatil := sd.info_marketCap
  let ventas := sd.info_totalRevenue
  let shares_outstanding := sd.info_sharesOutstanding
  let eps_hist := guardedDiv utilidad_neta shares_outstanding
  let per_promedio := perPromedioCalc sd.history10y_monthly eps_hist
  { ticker := ticker
    activo_corriente := activo_corriente
    pasivo_corriente := pasivo_corriente
    deuda_total := deuda_total
    activos_totales := activos_totales
    capital_contable := capital_contable
    dividendos_anuales := dividendos_anuales
    precio_de_cierre := precio_de_cierre
    capital_contable_promedio := capital_contable_promedio
    capitalizacion_bursatil := capitalizacion_bursatil
    ventas := ventas
    utilidad_neta := utilidad_neta
    razon_circulante := guardedDiv activo_corriente pasivo_corriente
    deudas_a_activos := guardedDiv deuda_total activos_totales
    deuda_a_capital := guardedDiv deuda_total capital_contable
    rendimiento_dividendos := guardedDiv (some dividendos_anuales) precio_de_cierre
    roa := guardedDiv utilidad_neta activos_totales
    roe := guardedDiv utilidad_neta capital_contable_promedio
    precio_a_ventas := guardedDiv capitalizacion_bursatil ventas
    precio_a_ganancia := guardedDiv capitalizacion_bursatil utilidad_neta
    per := per
    per_promedio := per_promedio }

/-- One iteration of the ticker loop: the body of the outer `try`.  `none`
means an exception was caught by the per-ticker handler (the provider fetch
raised, a present-but-empty row raised `IndexError`, or `trailingPE` was
missing from `info`), so no record is produced. -/
def processTicker (ticker : String) (od : Option StockData) : Option CompanySnapshot :=
  od.bind fun sd =>
    (rawFields sd).map fun f =>
      mkSnapshot ticker sd f.1 f.2.1 f.2.2.1 f.2.2.2.1 f.2.2.2.2.1 f.2.2.2.2.2

/-- The loop of `obtener_datos_financieros`: iterate over the tickers in order, append
one record per ticker whose processing completes, skip tickers whose
processing raised.  The returned DataFrame is the ordered list of records. -/
def obtener_datos_financieros : List (String × Option StockData) → List CompanySnapshot
  | [] => []
  | (t, od) :: rest =>
    match processTicker t od with
    | some row => row :: obtener_datos_financieros rest
    | none => obtener_datos_financieros rest

/-! ### Helper lemmas -/

theorem processTicker_some {t : String} {sd : StockData} {r : CompanySnapshot}
    (h : processTicker t (some sd) = some r) :
    ∃ ac pc dt ta ni pe, rawFields sd = some (ac, pc, dt, ta, ni, pe) ∧
      r = mkSnapshot t sd ac pc dt ta ni pe := by
  simp only [processTicker, Option.some_bind] at h
  rcases hf : rawFields sd with _ | ⟨ac, pc, dt, ta, ni, pe⟩ <;> rw [hf] at h
  · simp at h
  · simp only [Option.map_some'] at h
    exact ⟨ac, pc, dt, ta, ni, pe, rfl, (Option.some.inj h).symm⟩

theorem guardedDiv_pos {a b : ℚ} (ha : a ≠ 0) (hb : b ≠ 0) :
    guardedDiv (some a) (some b) = some (a / b) := by
  simp [guardedDiv, ha, hb]

theorem guardedDiv_null {x y : Option ℚ}
    (h : x = none ∨ x = some 0 ∨ y = none ∨ y = some 0) : guardedDiv x y = none := by
  rcases h with h | h | h | h <;> subst h
  · cases y <;> rfl
  · cases y <;> simp [guardedDiv]
  · cases x <;> rfl
  · cases x <;> simp [guardedDiv]

@[simp] theorem mkSnapshot_activo (t sd ac pc dt ta ni pe) :
    (mkSnapshot t sd ac pc dt ta ni pe).activo_corriente = ac := rfl

@[simp] theorem mkSnapshot_pasivo (t sd ac pc dt ta ni pe) :
    (mkSnapshot t sd ac pc dt ta ni pe).pasivo_corriente = pc := rfl

@[simp] theorem mkSnapshot_deuda (t sd ac pc dt ta ni pe) :
    (mkSnapshot t sd ac pc dt ta ni pe).deuda_total = dt := rfl

@[simp] theorem mkSnapshot_activos_tot (t sd ac pc dt ta ni pe) :
    (mkSnapshot t sd ac pc dt ta ni pe).activos_totales = ta := rfl

@[simp] theorem mkSnapshot_capital (t sd ac pc dt ta ni pe) :
    (mkSnapshot t sd ac pc dt ta ni pe).capital_contable = capitalContableCalc ta dt := rfl

@[simp] theorem mkSnapshot_dividendos (t sd ac pc dt ta ni pe) :
    (mkSnapshot t sd ac pc dt ta ni pe).dividendos_anuales =
      dividendosAnualesCalc sd.dividends := rfl

@[simp] theorem mkSnapshot_precio_cierre (t sd ac pc dt ta ni pe) :
    (mkSnapshot t sd ac pc dt ta ni pe).precio_de_cierre = sd.history1d.head? := rfl

@[simp] theorem mkSnapshot_promedio (t sd ac pc dt ta ni pe) :
    (mkSnapshot t sd ac pc dt ta ni pe).capital_contable_promedio =
      capitalContablePromedioCalc sd.quarterly_balance_sheet := rfl

@[simp] theorem mkSnapshot_capitalizacion (t sd ac pc dt ta ni pe) :
    (mkSnapshot t sd ac pc dt ta ni pe).capitalizacion_bursatil = sd.info_marketCap := rfl

@[simp] theorem mkSnapshot_ventas (t sd ac pc dt ta ni pe) :
    (mkSnapshot t sd ac pc dt ta ni pe).ventas = sd.info_totalRevenue := rfl

@[simp] theorem mkSnapshot_utilidad (t sd ac pc dt ta ni pe) :
    (mkSnapshot t sd ac pc dt ta ni pe).utilidad_neta = ni := rfl

@[simp] theorem mkSnapshot_razon (t sd ac pc dt ta ni pe) :
    (mkSnapshot t sd ac pc dt ta ni pe).razon_circulante = guardedDiv ac pc := rfl

@[simp] theorem mkSnapshot_deudas_a_activos (t sd ac pc dt ta ni pe) :
    (mkSnapshot t sd ac pc dt ta ni pe).deudas_a_activos = guardedDiv dt ta := rfl

@[simp] theorem mkSnapshot_deuda_a_capital (t sd ac pc dt ta ni pe) :
    (mkSnapshot t sd ac pc dt ta ni pe).deuda_a_capital =
      guardedDiv dt (capitalContableCalc ta dt) := rfl

@[simp] theorem mkSnapshot_rendimiento (t sd ac pc dt ta ni pe) :
    (mkSnapshot t sd ac pc dt ta ni pe).rendimiento_dividendos =
      guardedDiv (some (dividendosAnualesCalc sd.dividends)) sd.history1d.head? := rfl

@[simp] theorem mkSnapshot_roa (t sd ac pc dt ta ni pe) :
    (mkSnapshot t sd ac pc dt ta ni pe).roa = guardedDiv ni ta := rfl

@[simp] theorem mkSnapshot_roe (t sd ac pc dt ta ni pe) :
    (mkSnapshot t sd ac pc dt ta ni pe).roe =
      guardedDiv ni (capitalContablePromedioCalc sd.quarterly_balance_sheet) := rfl

@[simp] theorem mkSnapshot_precio_a_ventas (t sd ac pc dt ta ni pe) :
    (mkSnapshot t sd ac pc dt ta ni pe).precio_a_ventas =
      guardedDiv sd.info_marketCap sd.info_totalRevenue := rfl

@[simp] theorem mkSnapshot_precio_a_ganancia (t sd ac pc dt ta ni pe) :
    (mkSnapshot t sd ac pc dt ta ni pe).precio_a_ganancia =
      guardedDiv sd.info_marketCap ni := rfl

@[simp] theorem mkSnapshot_per (t sd ac pc dt ta ni pe) :
    (mkSnapshot t sd ac pc dt ta ni pe).per = pe := rfl

@[simp] theorem mkSnapshot_per_promedio (t sd ac pc dt ta ni pe) :
    (mkSnapshot t sd ac pc dt ta ni pe).per_promedio =
      perPromedioCalc sd.history10y_monthly
        (guardedDiv ni sd.info_sharesOutstanding) := rfl

/-! ### Concrete witness data -/

/-- Fully-populated provider data for one well-behaved ticker. -/
def sd0 : StockData :=
  { quarterly_balance_sheet :=
      [("Current Assets", [10]), ("Current Liabilities", [4]),
       ("Total Liabilities Net Minority Interest", [6]), ("Total Assets", [16]),
       ("Total Equity Gross Minority Interest", [10, 8])]
    dividends := [(2023, 1), (2022, 2)]
    history1d := [50]
    info_marketCap := some 1000
    info_totalRevenue := some 200
    info_sharesOutstanding := some 100
    info_trailingPE := some 25
    quarterly_financials := [("Net Income", [20])]
    history10y_monthly := some [(2023, 30), (2024, 34)] }

/-- The record `processTicker` produces for `sd0`. -/
def r0 : CompanySnapshot := mkSnapshot "AAPL" sd0 (some 10) (some 4) (some 6) (some 16) (some 20) 25

theorem processTicker_sd0 : processTicker "AAPL" (some sd0) = some r0 := rfl

/-- Data `sd0` with the revenue entry missing from `info`. -/
def sdZ : StockData := { sd0 with info_totalRevenue := none }

/-- The record `processTicker` produces for `sdZ`. -/
def rZ : CompanySnapshot := mkSnapshot "Z" sdZ (some 10) (some 4) (some 6) (some 16) (some 20) 25

theorem processTicker_sdZ : processTicker "Z" (some sdZ) = some rZ := rfl

/-! ### Claims -/

/-- C1: for every produced record and each of the eight guarded ratios, when
both operands are present and nonzero the ratio field holds exactly the
corresponding quotient (current ratio = current assets / current
liabilities, debt-to-assets = total liabilities / total assets,
debt-to-equity = total liabilities / computed equity, dividend yield =
annual dividends / closing price, ROA = net income / total assets, ROE =
net income / average equity, price-to-sales = market cap / revenue,
price-to-earnings = market cap / net income). -/
theorem claim_C1 (t : String) (sd : StockData) (r : CompanySnapshot)
    (h : processTicker t (some sd) = some r) :
    (∀ a b, r.activo_corriente = some a → r.pasivo_corriente = some b → a ≠ 0 → b ≠ 0 →
      r.razon_circulante = some (a / b)) ∧
    (∀ a b, r.deuda_total = some a → r.activos_totales = some b → a ≠ 0 → b ≠ 0 →
      r.deudas_a_activos = some (a / b)) ∧
    (∀ a b, r.deuda_total = some a → r.capital_contable = some b → a ≠ 0 → b ≠ 0 →
      r.deuda_a_capital = some (a / b)) ∧
    (∀ b, r.precio_de_cierre = some b → r.dividendos_anuales ≠ 0 → b ≠ 0 →
      r.rendimiento_dividendos = some (r.dividendos_anuales / b)) ∧
    (∀ a b, r.utilidad_neta = some a → r.activos_totales = some b → a ≠ 0 → b ≠ 0 →
      r.roa = some (a / b)) ∧
    (∀ a b, r.utilidad_neta = some a → r.capital_contable_promedio = some b → a ≠ 0 → b ≠ 0 →
      r.roe = some (a / b)) ∧
    (∀ a b, r.capitalizacion_bursatil = some a → r.ventas = some b → a ≠ 0 → b ≠ 0 →
      r.precio_a_ventas = some (a / b)) ∧
    (∀ a b, r.capitalizacion_bursatil = some a → r.utilidad_neta = some b → a ≠ 0 → b ≠ 0 →
      r.precio_a_ganancia = some (a / b)) := by
  obtain ⟨ac, pc, dt, ta, ni, pe, hf, hr⟩ := processTicker_some h
  subst hr
  refine ⟨?_, ?_, ?_, ?_, ?_, ?_, ?_, ?_⟩
  · intro a b h1 h2 h3 h4
    simp only [mkSnapshot_activo] at h1
    simp only [mkSnapshot_pasivo] at h2
    simp only [mkSnapshot_razon]
    rw [h1, h2]; exact guardedDiv_pos h3 h4
  · intro a b h1 h2 h3 h4
    simp only [mkSnapshot_deuda] at h1
    simp only [mkSnapshot_activos_tot] at h2
    simp only [mkSnapshot_deudas_a_activos]
    rw [h1, h2]; exact guardedDiv_pos h3 h4
  · intro a b h1 h2 h3 h4
    simp only [mkSnapshot_deuda] at h1
    simp only [mkSnapshot_capital] at h2
    simp only [mkSnapshot_deuda_a_capital]
    rw [h2, h1]; exact guardedDiv_pos h3 h4
  · intro b h1 h2 h3
    simp only [mkSnapshot_precio_cierre] at h1
    simp only [mkSnapshot_dividendos] at h2
    simp only [mkSnapshot_rendimiento, mkSnapshot_dividendos]
    rw [h1]; exact guardedDiv_pos h2 h3
  · intro a b h1 h2 h3 h4
    simp only [mkSnapshot_utilidad] at h1
    simp only [mkSnapshot_activos_tot] at h2
    simp only [mkSnapshot_roa]
    rw [h1, h2]; exact guardedDiv_pos h3 h4
  · intro a b h1 h2 h3 h4
    simp only [mkSnapshot_utilidad] at h1
    simp only [mkSnapshot_promedio] at h2
    simp only [mkSnapshot_roe]
    rw [h2, h1]; exact guardedDiv_pos h3 h4
  · intro a b h1 h2 h3 h4
    simp only [mkSnapshot_capitalizacion] at h1
    simp only [mkSnapshot_ventas] at h2
    simp only [mkSnapshot_precio_a_ventas]
    rw [h1, h2]; exact guardedDiv_pos h3 h4
  · intro a b h1 h2 h3 h4
    simp only [mkSnapshot_capitalizacion] at h1
    simp only [mkSnapshot_utilidad] at h2
    simp only [mkSnapshot_precio_a_ganancia]
    rw [h1, h2]; exact guardedDiv_pos h3 h4

theorem claim_C1_witness : r0.razon_circulante = some ((10 : ℚ) / 4) :=
  (claim_C1 "AAPL" sd0 r0 processTicker_sd0).1 10 4 rfl rfl (by norm_num) (by norm_num)

/-- C2: for every produced record and each of the eight guarded ratios, if an
operand is absent (null) or zero then the ratio field is `none` (never zero,
never an error value); the field always exists in the record, since
`CompanySnapshot` lists it structurally. -/
theorem claim_C2 (t : String) (sd : StockData) (r : CompanySnapshot)
    (h : processTicker t (some sd) = some r) :
    (r.activo_corriente = none ∨ r.activo_corriente = some 0 ∨
       r.pasivo_corriente = none ∨ r.pasivo_corriente = some 0 →
      r.razon_circulante = none) ∧
    (r.deuda_total = none ∨ r.deuda_total = some 0 ∨
       r.activos_totales = none ∨ r.activos_totales = some 0 →
      r.deudas_a_activos = none) ∧
    (r.deuda_total = none ∨ r.deuda_total = some 0 ∨
       r.capital_contable = none ∨ r.capital_contable = some 0 →
      r.deuda_a_capital = none) ∧
    (r.dividendos_anuales = 0 ∨ r.precio_de_cierre = none ∨ r.precio_de_cierre = some 0 →
      r.rendimiento_dividendos = none) ∧
    (r.utilidad_neta = none ∨ r.utilidad_neta = some 0 ∨
       r.activos_totales = none ∨ r.activos_totales = some 0 →
      r.roa = none) ∧
    (r.utilidad_neta = none ∨ r.utilidad_neta = some 0 ∨
       r.capital_contable_promedio = none ∨ r.capital_contable_promedio = some 0 →
      r.roe = none) ∧
    (r.capitalizacion_bursatil = none ∨ r.capitalizacion_bursatil = some 0 ∨
       r.ventas = none ∨ r.ventas = some 0 →
      r.precio_a_ventas = none) ∧
    (r.capitalizacion_bursatil = none ∨ r.capitalizacion_bursatil = some 0 ∨
       r.utilidad_neta = none ∨ r.utilidad_neta = some 0 →
      r.precio_a_ganancia = none) := by
  obtain ⟨ac, pc, dt, ta, ni, pe, hf, hr⟩ := processTicker_some h
  subst hr
  refine ⟨?_, ?_, ?_, ?_, ?_, ?_, ?_, ?_⟩ <;> simp only [mkSnapshot_activo, mkSnapshot_pasivo,
    mkSnapshot_deuda, mkSnapshot_activos_tot, mkSnapshot_capital, mkSnapshot_dividendos,
    mkSnapshot_precio_cierre, mkSnapshot_promedio, mkSnapshot_capitalizacion, mkSnapshot_ventas,
    mkSnapshot_utilidad, mkSnapshot_razon, mkSnapshot_deudas_a_activos,
    mkSnapshot_deuda_a_capital, mkSnapshot_rendimiento, mkSnapshot_roa, mkSnapshot_roe,
    mkSnapshot_precio_a_ventas, mkSnapshot_precio_a_ganancia] <;>
  intro hcase
  · exact guardedDiv_null (by tauto)
  · exact guardedDiv_null (by tauto)
  · exact guardedDiv_null (by tauto)
  · rcases hcase with h0 | h0 | h0
    · exact guardedDiv_null (Or.inr (Or.inl (by rw [h0])))
    · exact guardedDiv_null (by tauto)
    · exact guardedDiv_null (by tauto)
  · exact guardedDiv_null (by tauto)
  · exact guardedDiv_null (by tauto)
  · exact guardedDiv_null (by tauto)
  · exact guardedDiv_null (by tauto)

theorem claim_C2_witness : rZ.ventas = none ∧ rZ.precio_a_ventas = none :=
  ⟨rfl, (claim_C2 "Z" sdZ rZ processTicker_sdZ).2.2.2.2.2.2.1 (Or.inr (Or.inr (Or.inl rfl)))⟩

theorem obtener_eq_filterMap (l : List (String × Option StockData)) :
    obtener_datos_financieros l = l.filterMap (fun p => processTicker p.1 p.2) := by
  induction l with
  | nil => rfl
  | cons hd tl ih =>
    obtain ⟨t, od⟩ := hd
    rw [obtener_datos_financieros, List.filterMap_cons]
    cases processTicker t od <;> simp [ih]

/-- C3: a ticker whose processing raises contributes no row, the remaining
tickers are processed as if it were absent, and in general the result holds
exactly one row per ticker whose processing completed, in input order. -/
theorem claim_C3 (pre post : List (String × Option StockData)) (t : String)
    (od : Option StockData) (h : processTicker t od = none) :
    obtener_datos_financieros (pre ++ (t, od) :: post) =
      obtener_datos_financieros pre ++ obtener_datos_financieros post ∧
    ∀ l : List (String × Option StockData),
      obtener_datos_financieros l = l.filterMap (fun p => processTicker p.1 p.2) := by
  refine ⟨?_, obtener_eq_filterMap⟩
  rw [obtener_eq_filterMap, obtener_eq_filterMap, obtener_eq_filterMap,
    List.filterMap_append, List.filterMap_cons, h]

/-- Data `sd0` with `trailingPE` missing from `info`: the unguarded
`trailingPE` lookup in `stock.info` raises for this ticker. -/
def sdBad : StockData := { sd0 with info_trailingPE := none }

theorem claim_C3_witness :
    obtener_datos_financieros [("AAPL", some sd0), ("BAD", some sdBad), ("MSFT", some sd0)] =
      obtener_datos_financieros [("AAPL", some sd0)] ++
        obtener_datos_financieros [("MSFT", some sd0)] :=
  (claim_C3 [("AAPL", some sd0)] [("MSFT", some sd0)] "BAD" (some sdBad) rfl).1

/-- C4: when the ten-year average P/E step succeeds, the recorded value is
the mean of the last ten yearly-mean monthly closes, each divided by the
one current EPS = net income / shares outstanding; the same single EPS is
reused for every year. -/
theorem claim_C4 (t : String) (sd : StockData) (r : CompanySnapshot)
    (m : List (Int × ℚ)) (ni sh : ℚ)
    (h : processTicker t (some sd) = some r)
    (hm : sd.history10y_monthly = some m)
    (hni : r.utilidad_neta = some ni) (hni0 : ni ≠ 0)
    (hsh : sd.info_sharesOutstanding = some sh) (hsh0 : sh ≠ 0) :
    r.per_promedio =
      some (seriesMean ((lastTen (resampleYE m)).map (fun p => p / (ni / sh)))) := by
  obtain ⟨ac, pc, dt, ta, ni2, pe, hf, hr⟩ := processTicker_some h
  subst hr
  simp only [mkSnapshot_utilidad] at hni
  simp only [mkSnapshot_per_promedio]
  rw [hm, hni, hsh, guardedDiv_pos hni0 hsh0]
  rfl

theorem claim_C4_witness : r0.per_promedio = some 160 := by
  rw [claim_C4 "AAPL" sd0 r0 [(2023, 30), (2024, 34)] 20 100 processTicker_sd0 rfl rfl
    (by norm_num) rfl (by norm_num)]
  norm_num [seriesMean, lastTen, resampleYE, yearMean, uniqueYears]

theorem rawFields_history10y_none (sd : StockData) :
    rawFields { sd with history10y_monthly := none } = rawFields sd := rfl

theorem mkSnapshot_history10y_none (t : String) (sd : StockData)
    (ac pc dt ta ni : Option ℚ) (pe : ℚ) :
    mkSnapshot t { sd with history10y_monthly := none } ac pc dt ta ni pe =
      { mkSnapshot t sd ac pc dt ta ni pe with per_promedio := none } := rfl

theorem perPromedioCalc_eps_none (m : Option (List (Int × ℚ))) :
    perPromedioCalc m none = none := by
  cases m <;> rfl

/-- C5: a failure inside the ten-year P/E step (the monthly-price fetch
raising, or EPS unavailable because net income or shares outstanding is
missing or zero) leaves `per_promedio = none` and no other field of the
record is affected; the failure is caught inside the nested handler, so the
ticker itself still produces its record. -/
theorem claim_C5 (t : String) (sd : StockData) :
    processTicker t (some { sd with history10y_monthly := none }) =
      (processTicker t (some sd)).map (fun r => { r with per_promedio := none }) ∧
    (∀ r, processTicker t (some sd) = some r →
      (r.utilidad_neta = none ∨ r.utilidad_neta = some 0 ∨
        sd.info_sharesOutstanding = none ∨ sd.info_sharesOutstanding = some 0) →
      r.per_promedio = none) := by
  constructor
  · simp only [processTicker, Option.some_bind, rawFields_history10y_none]
    rcases hf : rawFields sd with _ | f
    · rfl
    · simp only [Option.map_some']
      exact congrArg some (mkSnapshot_history10y_none t sd f.1 f.2.1 f.2.2.1 f.2.2.2.1
        f.2.2.2.2.1 f.2.2.2.2.2)
  · intro r h hcase
    obtain ⟨ac, pc, dt, ta, ni, pe, hf, hr⟩ := processTicker_some h
    subst hr
    simp only [mkSnapshot_utilidad] at hcase
    simp only [mkSnapshot_per_promedio]
    rw [guardedDiv_null hcase]
    exact perPromedioCalc_eps_none sd.history10y_monthly

/-- Data `sd0` with `sharesOutstanding` missing from `info`, so no EPS exists. -/
def sdN : StockData := { sd0 with info_sharesOutstanding := none }

/-- The record `processTicker` produces for `sdN`. -/
def rN : CompanySnapshot := mkSnapshot "N" sdN (some 10) (some 4) (some 6) (some 16) (some 20) 25

theorem processTicker_sdN : processTicker "N" (some sdN) = some rN := rfl

theorem claim_C5_witness :
    (processTicker "AAPL" (some { sd0 with history10y_monthly := none }) =
      (processTicker "AAPL" (some sd0)).map (fun r => { r with per_promedio := none })) ∧
    rN.per_promedio = none :=
  ⟨(claim_C5 "AAPL" sd0).1,
    (claim_C5 "N" sdN).2 rN processTicker_sdN (Or.inr (Or.inr (Or.inl rfl)))⟩

theorem mem_uniqueYears {z : Int} {l : List Int} : z ∈ uniqueYears l ↔ z ∈ l := by
  induction l with
  | nil => simp [uniqueYears]
  | cons a tl ih =>
    simp only [uniqueYears, List.mem_cons, List.mem_filter, ih]
    by_cases hz : z = a <;> simp [hz]

theorem find?_year_map (divs : List (Int × ℚ)) (ys : List Int) (y : Int) :
    (ys.map (fun z => (z, yearSum divs z))).find? (fun p => p.1 = y) =
      (ys.find? (fun z => z = y)).map (fun z => (z, yearSum divs z)) := by
  induction ys with
  | nil => rfl
  | cons a tl ih =>
    by_cases ha : a = y <;> simp [List.find?_cons, ha, ih]

/-- The grouped sum `groupby(year).sum().get(2023, 0)` equals the plain sum of the events
dated 2023. -/
theorem dividendosAnualesCalc_eq (divs : List (Int × ℚ)) :
    dividendosAnualesCalc divs = yearSum divs 2023 := by
  simp only [dividendosAnualesCalc]
  rw [find?_year_map]
  rcases hfind : (uniqueYears (divs.map Prod.fst)).find? (fun z => z = 2023) with _ | y
  · rw [hfind]
    have hno : (2023 : Int) ∉ divs.map Prod.fst := by
      rw [← mem_uniqueYears]
      intro hmem
      have := List.find?_eq_none.mp hfind 2023 hmem
      simp at this
    have hfil : divs.filter (fun p => p.1 = (2023 : Int)) = [] := by
      rw [List.filter_eq_nil_iff]
      intro p hp hdec
      exact hno (List.mem_map.mpr ⟨p, hp, by simpa using hdec⟩)
    simp [yearSum, hfil]
  · rw [hfind]
    have hy : y = 2023 := by simpa using List.find?_some hfind
    subst hy
    simp

/-- C6: the annual-dividends field is the sum of exactly the dividend events
dated in the hard-coded target year 2023; with no 2023 events it is the
number zero (the field is not nullable). -/
theorem claim_C6 (t : String) (sd : StockData) (r : CompanySnapshot)
    (h : processTicker t (some sd) = some r) :
    r.dividendos_anuales = yearSum sd.dividends 2023 ∧
    (sd.dividends.filter (fun p => p.1 = (2023 : Int)) = [] → r.dividendos_anuales = 0) := by
  obtain ⟨ac, pc, dt, ta, ni, pe, hf, hr⟩ := processTicker_some h
  subst hr
  simp only [mkSnapshot_dividendos]
  refine ⟨dividendosAnualesCalc_eq _, fun hfil => ?_⟩
  rw [dividendosAnualesCalc_eq]
  simp [yearSum, hfil]

theorem claim_C6_witness :
    r0.dividendos_anuales = yearSum sd0.dividends 2023 ∧ yearSum sd0.dividends 2023 = 1 := by
  refine ⟨(claim_C6 "AAPL" sd0 r0 processTicker_sd0).1, ?_⟩
  norm_num [yearSum, sd0]

/-- C7: the average-equity field has a value exactly when the quarterly
balance sheet has the equity row with at least two entries, and then equals
the mean of the two most recent; no row, an empty row, or a single entry
all give `none`. -/
theorem claim_C7 (t : String) (sd : StockData) (r : CompanySnapshot)
    (h : processTicker t (some sd) = some r) :
    (lookupRow sd.quarterly_balance_sheet "Total Equity Gross Minority Interest" = none →
      r.capital_contable_promedio = none) ∧
    (lookupRow sd.quarterly_balance_sheet "Total Equity Gross Minority Interest" = some [] →
      r.capital_contable_promedio = none) ∧
    (∀ a, lookupRow sd.quarterly_balance_sheet "Total Equity Gross Minority Interest"
        = some [a] → r.capital_contable_promedio = none) ∧
    (∀ a b l, lookupRow sd.quarterly_balance_sheet "Total Equity Gross Minority Interest"
        = some (a :: b :: l) → r.capital_contable_promedio = some ((a + b) / 2)) := by
  obtain ⟨ac, pc, dt, ta, ni, pe, hf, hr⟩ := processTicker_some h
  subst hr
  simp only [mkSnapshot_promedio]
  refine ⟨fun h1 => ?_, fun h1 => ?_, fun a h1 => ?_, fun a b l h1 => ?_⟩ <;>
    simp [capitalContablePromedioCalc, h1]

theorem claim_C7_witness : r0.capital_contable_promedio = some (((10 : ℚ) + 8) / 2) :=
  (claim_C7 "AAPL" sd0 r0 processTicker_sd0).2.2.2 10 8 [] rfl

theorem capitalContableCalc_null {x y : Option ℚ}
    (h : x = none ∨ x = some 0 ∨ y = none ∨ y = some 0) :
    capitalContableCalc x y = none := by
  rcases h with h | h | h | h <;> subst h
  · cases y <;> rfl
  · cases y <;> simp [capitalContableCalc]
  · cases x <;> rfl
  · cases x <;> simp [capitalContableCalc]

/-- Data `sd0` with zero total liabilities: both operands of the equity
subtraction are present, but one of them is falsy. -/
def sd8 : StockData :=
  { sd0 with quarterly_balance_sheet :=
      [("Current Assets", [10]), ("Current Liabilities", [4]),
       ("Total Liabilities Net Minority Interest", [0]), ("Total Assets", [16]),
       ("Total Equity Gross Minority Interest", [10, 8])] }

/-- The record `processTicker` produces for `sd8`. -/
def r8 : CompanySnapshot := mkSnapshot "T8" sd8 (some 10) (some 4) (some 0) (some 16) (some 20) 25

/-- C8 as stated is false: with total assets = 16 and total liabilities = 0
both present, the code records the computed equity as `None` (the guard
tests truthiness, not presence), not `some (16 - 0)`. -/
theorem claim_C8_counterexample :
    processTicker "T8" (some sd8) = some r8 ∧
    r8.activos_totales = some 16 ∧ r8.deuda_total = some 0 ∧
    r8.capital_contable = none ∧ r8.capital_contable ≠ some (16 - 0) := by
  have hc : r8.capital_contable = none := by
    show capitalContableCalc (some 16) (some 0) = none
    simp [capitalContableCalc]
  refine ⟨rfl, rfl, rfl, hc, ?_⟩
  rw [hc]
  simp

/-- C8 amended: the computed-equity field equals total assets minus total
liabilities when both are present *and nonzero*; if either is absent or
zero it is `none`. -/
theorem claim_C8 (t : String) (sd : StockData) (r : CompanySnapshot)
    (h : processTicker t (some sd) = some r) :
    (∀ a d, r.activos_totales = some a → r.deuda_total = some d → a ≠ 0 → d ≠ 0 →
      r.capital_contable = some (a - d)) ∧
    (r.activos_totales = none ∨ r.activos_totales = some 0 ∨
       r.deuda_total = none ∨ r.deuda_total = some 0 →
      r.capital_contable = none) := by
  obtain ⟨ac, pc, dt, ta, ni, pe, hf, hr⟩ := processTicker_some h
  subst hr
  constructor
  · intro a d h1 h2 h3 h4
    simp only [mkSnapshot_activos_tot] at h1
    simp only [mkSnapshot_deuda] at h2
    simp only [mkSnapshot_capital]
    rw [h1, h2]
    simp [capitalContableCalc, h3, h4]
  · intro hcase
    simp only [mkSnapshot_activos_tot, mkSnapshot_deuda] at hcase
    simp only [mkSnapshot_capital]
    exact capitalContableCalc_null hcase

theorem claim_C8_witness : r0.capital_contable = some ((16 : ℚ) - 6) :=
  (claim_C8 "AAPL" sd0 r0 processTicker_sd0).1 16 6 rfl rfl (by norm_num) (by norm_num)

/-- C9: the closing-price field is the close of the one-day price history
when it is nonempty and `none` when it is empty.  A one-day request returns
at most one row, and the code reads the first row, which under that bound
is also the most recent close (`getLast?`). -/
theorem claim_C9 (t : String) (sd : StockData) (r : CompanySnapshot)
    (h : processTicker t (some sd) = some r)
    (h1 : sd.history1d.length ≤ 1) :
    r.precio_de_cierre = sd.history1d.getLast? ∧
    (sd.history1d = [] → r.precio_de_cierre = none) := by
  obtain ⟨ac, pc, dt, ta, ni, pe, hf, hr⟩ := processTicker_some h
  subst hr
  simp only [mkSnapshot_precio_cierre]
  have key : ∀ l : List ℚ, l.length ≤ 1 → l.head? = l.getLast? := by
    intro l hl
    match l with
    | [] => rfl
    | [c] => rfl
    | a :: b :: tl => simp [List.length_cons] at hl
  exact ⟨key _ h1, fun he => by rw [he]; rfl⟩

theorem claim_C9_witness : r0.precio_de_cierre = sd0.history1d.getLast? :=
  (claim_C9 "AAPL" sd0 r0 processTicker_sd0 (by decide)).1

/-- C10: ROE divides net income by the two-quarter average equity, not by
the point-in-time computed equity; when the average is unavailable, ROE is
`none` regardless of the computed equity. -/
theorem claim_C10 (t : String) (sd : StockData) (r : CompanySnapshot)
    (h : processTicker t (some sd) = some r) :
    (∀ ni cp, r.utilidad_neta = some ni → ni ≠ 0 →
      r.capital_contable_promedio = some cp → cp ≠ 0 → r.roe = some (ni / cp)) ∧
    (r.capital_contable_promedio = none → r.roe = none) := by
  obtain ⟨ac, pc, dt, ta, ni2, pe, hf, hr⟩ := processTicker_some h
  subst hr
  constructor
  · intro ni cp h1 h2 h3 h4
    simp only [mkSnapshot_utilidad] at h1
    simp only [mkSnapshot_promedio] at h3
    simp only [mkSnapshot_roe]
    rw [h3, h1]
    exact guardedDiv_pos h2 h4
  · intro h1
    simp only [mkSnapshot_promedio] at h1
    simp only [mkSnapshot_roe]
    rw [h1]
    exact guardedDiv_null (Or.inr (Or.inr (Or.inl rfl)))

/-- Data `sd0` with only one quarterly equity entry: average equity is
unavailable while computed equity (16 - 6 = 10) is present and nonzero. -/
def sd10 : StockData :=
  { sd0 with quarterly_balance_sheet :=
      [("Current Assets", [10]), ("Current Liabilities", [4]),
       ("Total Liabilities Net Minority Interest", [6]), ("Total Assets", [16]),
       ("Total Equity Gross Minority Interest", [10])] }

/-- The record `processTicker` produces for `sd10`. -/
def r10 : CompanySnapshot :=
  mkSnapshot "T10" sd10 (some 10) (some 4) (some 6) (some 16) (some 20) 25

theorem claim_C10_witness : r10.capital_contable = some 10 ∧ r10.roe = none := by
  constructor
  · show capitalContableCalc (some 16) (some 6) = some 10
    norm_num [capitalContableCalc]
  · exact (claim_C10 "T10" sd10 r10 rfl).2 rfl

end ControlDePortfolio
